import Mathlib

/-!
Verification development for the IFS journaling backend.

Shallow embedding of the dual-backend data-access layer and the route
handlers that the specification's testable properties talk about:
the parts endpoints, the usage-limit guards on messages and journals,
the Stripe webhook bookkeeping, the registration validation, and the
auth-time provisioning of the per-user System with its default part.

All definitions are translated from the Python source
(src/backend/app). Machine-level details that the properties do not
depend on (UUID generation, timestamps, logging) are elided; every
branch that decides a status code or mutates a row is kept.
-/

namespace IFS

/-- Subscription tiers stored in users.subscription_tier. -/
inductive Tier
  | free
  | pro
  | unlimited
  deriving DecidableEq, Repr

/-- The columns of the users table that the embedded handlers read or
write: subscription state and the daily usage counters.  Dates are day
numbers. -/
structure UserRec where
  id : String
  tier : Tier
  stripeCustomerId : Option String
  stripeSubscriptionId : Option String
  subscriptionStatus : Option String
  dailyMessagesUsed : Nat
  lastMessageDate : Option Nat
  dailyJournalsUsed : Nat
  lastJournalDate : Option Nat
  deriving DecidableEq, Repr

/-- A row of the parts table (the columns the embedded endpoints touch). -/
structure PartRec where
  id : String
  name : String
  role : Option String
  systemId : String
  feelings : List String
  deriving DecidableEq, Repr

/-! ## DBAdapter.delete, local arm, and the delete-part endpoint

From src/backend/app/utils/db_adapter.py (DBAdapter.delete, SQLAlchemy
arm): look the record up by primary key; if it is absent return False,
otherwise delete it and return True.

From src/backend/app/api/parts.py (delete_part): call the adapter; a
False result is answered 404 "Part not found", a True result is
answered 200 "Part deleted successfully".  The handler performs no
check whatsoever on the part being deleted (in particular none on its
name or role). -/

/-- Local-ORM arm of DBAdapter.delete on the parts table. -/
def dbDeleteLocal (parts : List PartRec) (idv : String) : Bool × List PartRec :=
  if parts.any (fun p => p.id = idv) then
    (true, parts.filter (fun p => p.id ≠ idv))
  else
    (false, parts)

/-- The delete-part route handler over the local backend: status code,
response message, and resulting store. -/
def deletePart (parts : List PartRec) (partId : String) : Nat × String × List PartRec :=
  let r := dbDeleteLocal parts partId
  if r.1 then (200, "Part deleted successfully", r.2)
  else (404, "Part not found", r.2)

/-- Whether an HTTP status is a success, as tested throughout
db_adapter.py (response.status_code >= 200 and < 300). -/
def is2xx (s : Nat) : Bool := decide (200 ≤ s) && decide (s < 300)

/-- HTTP status of the hosted table-service REST DELETE with an id
filter.  PostgREST answers 204 No Content whether or not any row
matched the filter, so the status does not depend on the table
contents or the id. -/
def remoteDeleteHttpStatus (_table : List PartRec) (_idv : String) : Nat := 204

/-- Hosted (Supabase) arm of DBAdapter.delete: issue the REST DELETE
and report success exactly when the status is 2xx. -/
def dbDeleteSupabase (table : List PartRec) (idv : String) : Bool :=
  is2xx (remoteDeleteHttpStatus table idv)

/-- The delete-part route handler over the hosted backend: status code
and response message. -/
def deletePartSupabase (table : List PartRec) (partId : String) : Nat × String :=
  if dbDeleteSupabase table partId then (200, "Part deleted successfully")
  else (404, "Part not found")

/-! ## The create-part endpoint

From src/backend/app/api/parts.py (create_part): validate the payload
against PartSchema (name and system_id are the only required fields),
reject invalid payloads with 400, then hand the data to
DBAdapter.create; a failed write is answered 500, a successful one 201
with the created row.  The handler never reads the requesting user's
subscription tier and never counts existing parts. -/

/-- The request payload of create_part (the fields the handler reads). -/
structure PartPayload where
  name : Option String
  role : Option String
  systemId : Option String
  feelings : List String
  deriving DecidableEq, Repr

/-- PartSchema validation: name and system_id are required. -/
def partSchemaValid (p : PartPayload) : Bool :=
  p.name.isSome && p.systemId.isSome

/-- The create-part route handler (local arm; dbOk tells whether the
adapter write succeeds).  The user argument is the authenticated user
provided by auth_required; the handler never inspects it. -/
def createPart (_user : UserRec) (parts : List PartRec) (payload : PartPayload)
    (newId : String) (dbOk : Bool) : Nat × List PartRec :=
  match payload.name, payload.systemId with
  | some n, some s =>
    if dbOk then
      (201, parts ++ [{ id := newId, name := n, role := payload.role,
                        systemId := s, feelings := payload.feelings }])
    else (500, parts)
  | _, _ => (400, parts)

/-! ## The message quota guard and add_session_message

From src/backend/app/api/conversations.py (add_session_message),
embedded for the local-ORM backend: after resolving the user and the
session, for non-unlimited tiers the daily limit is 30 for pro and 10
otherwise; if last_message_date differs from today's UTC date the
counter is reset to 0 and the date set to today before the comparison;
an exhausted quota is answered 403 after committing the reset.
Otherwise the user message is saved through DBAdapter.create — whose
local arm commits the shared session (db_adapter.py:252-254),
persisting the pending reset along with the insert; a failed insert is
rolled back inside the adapter, discarding the reset, and answered
500.  The handler then prepares the LLM context by calling
DBAdapter.get_all with order_by and limit keyword arguments
(conversations.py:396-402) that the signature at db_adapter.py:128
does not accept, so whenever the LLM service is loaded that call
raises a TypeError before the LLM is invoked; the except arm at
conversations.py:478 substitutes a placeholder response and skips the
increment, exactly as when the service is not loaded.  The increment
of daily_messages_used at conversations.py:473-476 only runs when the
LLM call succeeds, which requires the context fetch not to raise.
Finally the guide message is saved — a failure rolls back only the
uncommitted changes and answers 500, the already committed reset
staying — and the request is committed with a 201.

The boolean arguments stand for the outcomes of the calls the handler
makes: session lookup and ownership, the two adapter writes, the LLM
service being loaded, and the LLM call itself succeeding when
reached.  The returned user record is the committed row after the
request. -/

/-- Daily message limit by tier, as computed inside add_session_message
(only consulted for non-unlimited tiers). -/
def messageLimit (t : Tier) : Nat := if t = Tier.pro then 30 else 10

/-- Whether DBAdapter.get_all accepts the order_by and limit keyword
arguments that add_session_message passes when fetching the LLM
context (conversations.py:396-402).  The signature at
db_adapter.py:128 takes only table, model_class and filter_dict, with
no keyword catch-all, so it does not. -/
def getAllAcceptsContextKwargs : Bool := false

/-- The add-session-message route handler: status code and committed
user row. -/
def addSessionMessage (user : UserRec) (today : Nat)
    (sessionOk saveUserOk llmAvailable llmOk saveGuideOk : Bool) :
    Nat × UserRec :=
  if ¬ sessionOk then (404, user)
  else
    let u1 :=
      if user.tier ≠ Tier.unlimited ∧ user.lastMessageDate ≠ some today then
        { user with dailyMessagesUsed := 0, lastMessageDate := some today }
      else user
    if user.tier ≠ Tier.unlimited ∧ messageLimit user.tier ≤ u1.dailyMessagesUsed then
      (403, u1)
    else if ¬ saveUserOk then (500, user)
    else
      let u2 :=
        if (llmAvailable && getAllAcceptsContextKwargs && llmOk) = true ∧
            user.tier ≠ Tier.unlimited then
          { u1 with dailyMessagesUsed := u1.dailyMessagesUsed + 1 }
        else u1
      if ¬ saveGuideOk then (500, u1)
      else (201, u2)

/-! ## The journal quota guard and create_journal

From src/backend/app/api/journals.py (create_journal): for
non-unlimited tiers the daily limit is 10 for pro and 1 otherwise; a
rolled-over date resets the counter to 0 before the comparison; an
exhausted quota is answered 403 (the uncommitted reset is discarded);
then the payload is validated (400) and an optional part reference
checked (404); the journal row is added and the counter incremented in
the same transaction, so a failed commit rolls both back (500). -/

/-- Daily journal limit by tier, as computed inside create_journal. -/
def journalLimit (t : Tier) : Nat := if t = Tier.pro then 10 else 1

/-- The create-journal route handler: status code and committed user
row.  validOk is the schema validation outcome, partOk the optional
part lookup, createOk the commit of the insert. -/
def createJournal (user : UserRec) (today : Nat)
    (systemOk validOk partOk createOk : Bool) : Nat × UserRec :=
  if ¬ systemOk then (404, user)
  else
    let u1 :=
      if user.tier ≠ Tier.unlimited ∧ user.lastJournalDate ≠ some today then
        { user with dailyJournalsUsed := 0, lastJournalDate := some today }
      else user
    if user.tier ≠ Tier.unlimited ∧ journalLimit user.tier ≤ u1.dailyJournalsUsed then
      (403, user)
    else if ¬ validOk then (400, user)
    else if ¬ partOk then (404, user)
    else
      let u2 :=
        if user.tier ≠ Tier.unlimited then
          { u1 with dailyJournalsUsed := u1.dailyJournalsUsed + 1 }
        else u1
      if createOk then (201, u2) else (500, user)

/-! ## Field values and the create/get round trip of the adapter

From src/backend/app/utils/db_adapter.py: the Supabase arm of create
pre-processes the payload, turning UUIDs and lists into their Python
str() rendering, and stores the processed payload through the REST
API; get_by_id hands the stored row back verbatim (response.json()).
The SQLAlchemy arm instantiates the model class with the payload, so a
list-valued feelings field is stored as a JSONB list, and
Part.to_dict (src/backend/app/models/part.py) returns it unchanged
(its string-parse branch only fires on string-valued fields, and a
None field becomes the empty list). -/

/-- A JSON-ish field value as the adapter sees it. -/
inductive Value
  | vStr (s : String)
  | vList (l : List String)
  | vNull
  deriving DecidableEq, Repr

/-- The single-quote character, written by code point to keep the
development ASCII-clean. -/
def singleQuote : String := String.mk [Char.ofNat 39]

/-- Python repr of one string (single-quoted). -/
def pyQuote (s : String) : String := singleQuote ++ s ++ singleQuote

/-- Python str() of a list of strings: bracketed, comma-space
separated, items single-quoted. -/
def pyListRepr (l : List String) : String :=
  match l with
  | [] => "[]"
  | x :: xs =>
    "[" ++ pyQuote x ++ String.join (xs.map (fun y => ", " ++ pyQuote y)) ++ "]"

/-- Pre-processing of one field in the Supabase arm of
DBAdapter.create: a list becomes its Python str() rendering; other
values pass through. -/
def supabaseSerializeValue : Value → Value
  | Value.vList l => Value.vStr (pyListRepr l)
  | v => v

/-- Pre-processing of a whole payload (field name, value pairs). -/
def supabaseProcessPayload (payload : List (String × Value)) :
    List (String × Value) :=
  payload.map (fun kv => (kv.1, supabaseSerializeValue kv.2))

/-- The hosted table: rows stored by id, served back verbatim. -/
def RemoteTable := List (String × List (String × Value))

/-- Supabase arm of DBAdapter.create: store the processed payload;
the REST representation of the created row is that processed payload. -/
def supabaseCreateRow (t : RemoteTable) (idv : String)
    (payload : List (String × Value)) : RemoteTable × List (String × Value) :=
  let processed := supabaseProcessPayload payload
  ((idv, processed) :: t, processed)

/-- Supabase arm of DBAdapter.get_by_id: the stored row, verbatim. -/
def supabaseGetRowById (t : RemoteTable) (idv : String) :
    Option (List (String × Value)) :=
  match t with
  | [] => none
  | (k, row) :: rest => if k = idv then some row else supabaseGetRowById rest idv

/-- Local arm of DBAdapter.create on the parts table: instantiate and
append the row. -/
def dbCreateLocalPart (store : List PartRec) (p : PartRec) : List PartRec :=
  store ++ [p]

/-- Local arm of DBAdapter.get_by_id on the parts table. -/
def dbGetLocalPartById (store : List PartRec) (idv : String) : Option PartRec :=
  store.find? (fun p => p.id = idv)

/-- Part.to_dict rendering of the feelings column when it holds a
list (the JSONB case produced by Part.__init__). -/
def partToDictFeelings (p : PartRec) : Value := Value.vList p.feelings

/-- Round trip through the local backend: create a part with the given
feelings into an empty store, fetch it by id, render with to_dict. -/
def localRoundTripFeelings (feelings : List String) : Option Value :=
  (dbGetLocalPartById
      (dbCreateLocalPart []
        { id := "p1", name := "N", role := none, systemId := "s1",
          feelings := feelings })
      "p1").map partToDictFeelings

/-- Round trip through the hosted backend: create a row whose feelings
field is the given list into an empty table, fetch it by id, read the
feelings field. -/
def hostedRoundTripFeelings (feelings : List String) : Option Value :=
  match supabaseGetRowById
      (supabaseCreateRow [] "p1" [("feelings", Value.vList feelings)]).1
      "p1" with
  | some row => row.lookup "feelings"
  | none => none

/-! ## The Stripe webhook, customer.subscription.deleted arm

From src/backend/app/api/billing.py (stripe_webhook): for this event
type the handler looks the first user up by stripe_subscription_id; a
match gets subscription_tier set to free, subscription_status to
canceled and stripe_subscription_id cleared (the customer id is kept);
no match is only logged.  Either way the handler falls through to the
final acknowledgement, a 200. -/

/-- The row update performed on the matched user. -/
def subscriptionDeletedUpdate (u : UserRec) : UserRec :=
  { u with tier := Tier.free,
           subscriptionStatus := some "canceled",
           stripeSubscriptionId := none }

/-- Apply the update to the first user whose stripe_subscription_id
matches, leaving everyone else untouched. -/
def updateFirstMatch : List UserRec → String → List UserRec
  | [], _ => []
  | u :: us, sid =>
    if u.stripeSubscriptionId = some sid then subscriptionDeletedUpdate u :: us
    else u :: updateFirstMatch us sid

/-- The webhook handler on a customer.subscription.deleted event for
subscription id sid: status code and resulting users table. -/
def processSubscriptionDeleted (users : List UserRec) (sid : String) :
    Nat × List UserRec :=
  (200, updateFirstMatch users sid)

/-! ## Failure semantics of every DBAdapter operation

Each operation of src/backend/app/utils/db_adapter.py wraps its whole
body in one try/except that logs and returns a sentinel; the outcomes
of the underlying backend call are made explicit below as inductives:
a local ORM lookup either finds a record, finds nothing, or raises;
a hosted REST call either yields a status with a row list or the HTTP
client raises.  Each embedded operation maps every outcome, error
outcomes included, to a plain return value. -/

/-- A generic record, as the adapter returns them (dictionaries). -/
abbrev Row := List (String × Value)

/-- Outcome of a local primary-key lookup (model_class.query.get plus
the surrounding session work). -/
inductive LocalFetch
  | found (r : Row)
  | missing
  | raises

/-- Outcome of a local query yielding a value of type a (query.all,
count, raw vector queries), or of a local write. -/
inductive LocalQuery (a : Type)
  | ok (v : a)
  | raises

/-- Outcome of a hosted REST call: a response or a client exception. -/
inductive HttpResp
  | resp (status : Nat) (rows : List Row)
  | netError

/-- DBAdapter.get_by_id, local arm: found record as a dictionary;
nothing and exceptions are both None. -/
def getByIdLocal : LocalFetch → Option Row
  | LocalFetch.found r => some r
  | LocalFetch.missing => none
  | LocalFetch.raises => none

/-- DBAdapter.get_all, local arm: the rows, or the empty list on an
exception. -/
def getAllLocal : LocalQuery (List Row) → List Row
  | LocalQuery.ok rs => rs
  | LocalQuery.raises => []

/-- DBAdapter.create, local arm: the committed record, or None after
rollback on an exception. -/
def createLocal : LocalQuery Row → Option Row
  | LocalQuery.ok r => some r
  | LocalQuery.raises => none

/-- Outcome of a local update: the patched, committed record; a
missing id; or an exception somewhere in fetch, patch or commit. -/
inductive LocalUpdate
  | updated (r : Row)
  | missing
  | raises

/-- DBAdapter.update, local arm: None both for a missing id and after
rollback on an exception. -/
def updateLocal : LocalUpdate → Option Row
  | LocalUpdate.updated r => some r
  | LocalUpdate.missing => none
  | LocalUpdate.raises => none

/-- DBAdapter.delete, local arm, by fetch outcome: False both for a
missing id and after rollback on an exception. -/
def deleteLocalOutcome : LocalFetch → Bool
  | LocalFetch.found _ => true
  | LocalFetch.missing => false
  | LocalFetch.raises => false

/-- DBAdapter.count, local arm: 0 on an exception (and a NULL scalar
is also rendered 0 by the source's final or-0). -/
def countLocal : LocalQuery Nat → Nat
  | LocalQuery.ok n => n
  | LocalQuery.raises => 0

/-- DBAdapter.query_vector_similarity, local arm. -/
def vectorSimilarityLocal : LocalQuery (List Row) → List Row
  | LocalQuery.ok rs => rs
  | LocalQuery.raises => []

/-- DBAdapter.get_by_id, hosted arm: first row of a 2xx response;
None for an empty 2xx body, a non-2xx status, or a client exception. -/
def getByIdSupabase : HttpResp → Option Row
  | HttpResp.resp s rows => if is2xx s then rows.head? else none
  | HttpResp.netError => none

/-- DBAdapter.get_all, hosted arm: the 2xx body, otherwise the empty
list. -/
def getAllSupabase : HttpResp → List Row
  | HttpResp.resp s rows => if is2xx s then rows else []
  | HttpResp.netError => []

/-- DBAdapter.create, hosted arm: first row of a 2xx representation;
an empty 2xx body falls back to the processed payload itself; a
non-2xx status or a client exception is None. -/
def createSupabase (processed : Row) : HttpResp → Option Row
  | HttpResp.resp s rows =>
    if is2xx s then
      match rows with
      | [] => some processed
      | r :: _ => some r
    else none
  | HttpResp.netError => none

/-- DBAdapter.update, hosted arm: like get_by_id on the PATCH
representation. -/
def updateSupabase : HttpResp → Option Row
  | HttpResp.resp s rows => if is2xx s then rows.head? else none
  | HttpResp.netError => none

/-- DBAdapter.delete, hosted arm: success is exactly a 2xx status. -/
def deleteSupabaseOutcome : HttpResp → Bool
  | HttpResp.resp s _ => is2xx s
  | HttpResp.netError => false

/-- Outcome of the hosted count: the HEAD response carries a status, a
content-range total (absent, present-but-unparsable, or parsed), and
the GET issued when the header is absent. -/
inductive CountResp
  | resp (status : Nat) (contentRange : Option (Option Nat)) (fallback : HttpResp)
  | netError

/-- DBAdapter.count, hosted arm: the parsed content-range total; 0 for
an unparsable header; the fallback GET body length when the header is
absent; 0 on any failing status or exception. -/
def countSupabase : CountResp → Nat
  | CountResp.resp s cr fb =>
    if is2xx s then
      match cr with
      | some (some n) => n
      | some none => 0
      | none =>
        match fb with
        | HttpResp.resp s2 rows => if is2xx s2 then rows.length else 0
        | HttpResp.netError => 0
    else 0
  | CountResp.netError => 0

/-- DBAdapter.query_vector_similarity, hosted arm: the 2xx body of the
RPC call, otherwise the empty list. -/
def vectorSimilaritySupabase : HttpResp → List Row
  | HttpResp.resp s rows => if is2xx s then rows else []
  | HttpResp.netError => []

/-! ## Auth-time provisioning of the System and its default part

From src/backend/app/utils/auth_adapter.py (auth_required): the
Supabase arm, after verifying the token and reconciling the local user
row, looks the user's IFSSystem up; if none exists it creates one
together with the default part (name Self, role Self); if one exists
it checks for a part with role Self and recreates it when missing.
The JWT arm only verifies the token and stores the identity in the
request context: it touches no systems and no parts. -/

/-- A row of the ifs_systems table. -/
structure SystemRec where
  id : String
  userId : String
  deriving DecidableEq, Repr

/-- The eight feelings seeded on the default part. -/
def selfFeelings : List String :=
  ["Calm", "curious", "compassionate", "connected", "clear", "confident",
   "creative", "courageous"]

/-- The default part created for a system. -/
def mkSelfPart (pid sysId : String) : PartRec :=
  { id := pid, name := "Self", role := some "Self", systemId := sysId,
    feelings := selfFeelings }

/-- Which auth backend is active (SUPABASE_USE_FOR_AUTH). -/
inductive AuthMode
  | supabase
  | jwt
  deriving DecidableEq, Repr

/-- Whether some part of the given system has role Self, as queried by
the repair check. -/
def hasSelfPart (parts : List PartRec) (sysId : String) : Bool :=
  parts.any (fun p => p.systemId = sysId && p.role = some "Self")

/-- The provisioning side effect of auth_required on a successful
authenticated request by user uid: the resulting systems and parts
tables.  newSysId and newPartId are the ids minted for rows created in
this request. -/
def authRequiredProvision (mode : AuthMode) (uid newSysId newPartId : String)
    (systems : List SystemRec) (parts : List PartRec) :
    List SystemRec × List PartRec :=
  match mode with
  | AuthMode.jwt => (systems, parts)
  | AuthMode.supabase =>
    match systems.find? (fun s => s.userId = uid) with
    | none =>
      (systems ++ [{ id := newSysId, userId := uid }],
       parts ++ [mkSelfPart newPartId newSysId])
    | some s =>
      if hasSelfPart parts s.id then (systems, parts)
      else (systems, parts ++ [mkSelfPart newPartId s.id])

/-! ## Registration validation and the register endpoint

From src/backend/app/api/auth.py (validate_registration_input and
register) and src/backend/app/utils/auth_adapter.py (register_user).
Validation: RegisterSchema requires a valid email and a password of
at least 8 characters; then email_validator re-checks the email, the
length is re-checked, and the password must contain an uppercase, a
lowercase and a digit — the strength failures are keyed on the
password field.  Dispatch: the local-JWT arm rejects an email already
present in the users table by raising a ValueError, which register
answers 400; the hosted arm delegates to the provider sign-up call and
raises a ValueError only when the response carries no user object —
any exception the provider client raises is re-raised as-is and falls
into the generic handler, a 500, while a user-without-session response
is treated as confirmation-required, a 201. -/

/-- Does the string contain an uppercase character. -/
def hasUpper (s : String) : Bool := s.toList.any Char.isUpper

/-- Does the string contain a lowercase character. -/
def hasLower (s : String) : Bool := s.toList.any Char.isLower

/-- Does the string contain a digit. -/
def hasDigit (s : String) : Bool := s.toList.any Char.isDigit

/-- validate_registration_input: validity flag and the field names of
the reported errors.  emailOk abstracts the two email validators. -/
def validateRegistrationInput (emailOk : Bool) (password : String) :
    Bool × List String :=
  let schemaErrors :=
    (if ¬ emailOk then ["email"] else []) ++
    (if password.length < 8 then ["password"] else [])
  if schemaErrors ≠ [] then (false, schemaErrors)
  else if ¬ emailOk then (false, ["email"])
  else if password.length < 8 then (false, ["password"])
  else if ¬ (hasUpper password && hasLower password && hasDigit password) then
    (false, ["password"])
  else (true, [])

/-- Which auth backend register_user dispatches to. -/
inductive RegisterMode
  | localJwt
  | hostedSupabase
  deriving DecidableEq, Repr

/-- Outcome of the hosted provider's sign-up call. -/
inductive SupaSignupOutcome
  | sessionGranted
  | confirmationNeeded
  | noUser
  | apiError
  deriving DecidableEq, Repr

/-- The register endpoint: status code and the field names of any
field-level errors.  emailTaken is whether a local user row already
holds the email (consulted only by the local arm); supa is the hosted
provider outcome (consulted only by the hosted arm). -/
def registerResult (mode : RegisterMode) (emailOk : Bool) (password : String)
    (emailTaken : Bool) (supa : SupaSignupOutcome) : Nat × List String :=
  let v := validateRegistrationInput emailOk password
  if v.1 = false then (400, v.2)
  else
    match mode with
    | RegisterMode.localJwt => if emailTaken then (400, []) else (201, [])
    | RegisterMode.hostedSupabase =>
      match supa with
      | SupaSignupOutcome.sessionGranted => (201, [])
      | SupaSignupOutcome.confirmationNeeded => (201, [])
      | SupaSignupOutcome.noUser => (400, [])
      | SupaSignupOutcome.apiError => (500, [])

/-! ## Sample rows used by the concrete evaluations below -/

/-- A store holding exactly the default part of system s1. -/
def selfOnlyStore : List PartRec :=
  [{ id := "p1", name := "Self", role := some "Self", systemId := "s1",
     feelings := [] }]

/-- A free-tier user who exhausted the daily message quota on day 0. -/
def freeUserDayOld : UserRec :=
  { id := "u1", tier := Tier.free, stripeCustomerId := none,
    stripeSubscriptionId := none, subscriptionStatus := none,
    dailyMessagesUsed := 10, lastMessageDate := some 0,
    dailyJournalsUsed := 0, lastJournalDate := none }

/-- Ten live parts of system s1, a free user's part count at the limit
the claim names. -/
def tenLiveParts : List PartRec :=
  (List.range 10).map (fun i =>
    { id := toString i, name := "P", role := none, systemId := "s1",
      feelings := [] })

/-! ## Theorems -/

/-- C1: the delete-part endpoint performs no check on the part being
deleted.  Evaluated at a store holding a Part with role and name Self,
the request is answered 200 "Part deleted successfully" and the Part
is removed from the store — not the 403-and-retained behaviour the
claim states. -/
theorem C1_self_part_delete_evaluation :
    (deletePart selfOnlyStore "p1").1 = 200 ∧
    (deletePart selfOnlyStore "p1").2.1 = "Part deleted successfully" ∧
    (deletePart selfOnlyStore "p1").2.2 = [] := by
  decide

/-- C2 counterexample: a free-tier user whose live part count already
equals the claimed tier limit of 10 issues a valid create-part
request; the endpoint answers 201 and a row is created (count 11),
not the 403-and-no-row the claim states. -/
theorem C2_counterexample_at_limit_creation_succeeds :
    tenLiveParts.length = 10 ∧
    freeUserDayOld.tier = Tier.free ∧
    (createPart freeUserDayOld tenLiveParts
      { name := some "Anxious", role := none, systemId := some "s1",
        feelings := [] } "pNew" true).1 = 201 ∧
    (createPart freeUserDayOld tenLiveParts
      { name := some "Anxious", role := none, systemId := some "s1",
        feelings := [] } "pNew" true).2.length = 11 := by
  decide

/-- C2 amended: create_part applies no tier-based part limit at all.
For every user, whatever their tier and current part count, a valid
create request whose adapter write succeeds is answered 201 and
appends exactly one Part row. -/
theorem C2_create_part_has_no_tier_limit (u : UserRec) (parts : List PartRec)
    (n sysId : String) (r : Option String) (fs : List String) (newId : String) :
    (createPart u parts
      { name := some n, role := r, systemId := some sysId, feelings := fs }
      newId true).1 = 201 ∧
    (createPart u parts
      { name := some n, role := r, systemId := some sysId, feelings := fs }
      newId true).2 =
      parts ++ [{ id := newId, name := n, role := r, systemId := sysId,
                  feelings := fs }] ∧
    (createPart u parts
      { name := some n, role := r, systemId := some sysId, feelings := fs }
      newId true).2.length = parts.length + 1 := by
  refine ⟨rfl, rfl, ?_⟩
  simp [createPart]

/-- C4 counterexample: the create/get round trip of a part whose
feelings are the two-element list the claim names does not behave
identically on the two backends — the hosted arm does not return the
list (it returns its Python str() rendering), while the local arm
does. -/
theorem C4_roundtrip_counterexample :
    localRoundTripFeelings ["calm", "curious"] =
      some (Value.vList ["calm", "curious"]) ∧
    hostedRoundTripFeelings ["calm", "curious"] ≠
      some (Value.vList ["calm", "curious"]) := by
  decide

/-- C4 amended: the round trip preserves the feelings list on the
local backend, but on the hosted backend the create arm serializes the
list with Python str() and get_by_id returns the stored value
verbatim, so the fetched field is that string rendering instead of the
list. -/
theorem C4_roundtrip_by_backend (fs : List String) :
    localRoundTripFeelings fs = some (Value.vList fs) ∧
    hostedRoundTripFeelings fs = some (Value.vStr (pyListRepr fs)) := by
  constructor
  · rfl
  · rfl

/-- C3: evaluation at the claim's scenario — a free-tier user with the
counter at the limit and yesterday's date sends the first message of
the new day, with the session valid, both writes succeeding and the
LLM service loaded.  The quota check does not reject and the request
succeeds with 201 with the date set to today, but the committed
counter is 0, not the claimed 1: the increment is unreachable because
the LLM-context fetch calls get_all with keyword arguments its
signature rejects, so the TypeError lands in the except arm that skips
the increment.  The final conjunct shows the handler can never
increase the counter on any input. -/
theorem C3_new_day_first_message_evaluation :
    (addSessionMessage freeUserDayOld 1 true true true true true).1 = 201 ∧
    (addSessionMessage freeUserDayOld 1 true true true true
      true).2.dailyMessagesUsed = 0 ∧
    (addSessionMessage freeUserDayOld 1 true true true true
      true).2.lastMessageDate = some 1 ∧
    getAllAcceptsContextKwargs = false ∧
    ∀ (u : UserRec) (today : Nat) (sOk suOk la lo sg : Bool),
      (addSessionMessage u today sOk suOk la lo sg).2.dailyMessagesUsed ≤
        u.dailyMessagesUsed := by
  refine ⟨by decide, by decide, by decide, by decide, ?_⟩
  intro u today sOk suOk la lo sg
  unfold addSessionMessage
  split_ifs <;> simp_all [getAllAcceptsContextKwargs]
  all_goals split_ifs <;> simp_all

/-- C9 counterexample: a free-tier user holding 10 used messages with a
rolled-over date sends a message.  If the inference call fails the
request still completes (201 with a placeholder) with the committed
counter 0; if instead the guide-message write fails the request ends
500 and the committed counter is again 0, the rollover reset having
been committed together with the user-message insert.  Both failing
requests end with the counter changed from its start-of-request value
of 10. -/
theorem C9_counterexample_reset_committed_on_failed_inference :
    (addSessionMessage freeUserDayOld 1 true true true false true).1 = 201 ∧
    (addSessionMessage freeUserDayOld 1 true true true false
      true).2.dailyMessagesUsed = 0 ∧
    (addSessionMessage freeUserDayOld 1 true true true true false).1 = 500 ∧
    (addSessionMessage freeUserDayOld 1 true true true true
      false).2.dailyMessagesUsed = 0 ∧
    freeUserDayOld.dailyMessagesUsed = 10 := by
  decide

/-- C9 amended: failed attempts are never charged, in the sense that
the message counter is never incremented (on any outcome the committed
value is 0 or the start-of-request value, never one more); a failed
user-message insert ends 500 with the user row rolled back to its
start state, but a failed guide-message write ends 500 with the
rollover reset already committed, so the row is not necessarily the
start one.  For journals the claim holds as stated: a failed insert
ends 500 with the user row unchanged, and the journal counter is
incremented only on a successful insert. -/
theorem C9_counter_not_charged_on_failure (u : UserRec) (today : Nat) :
    (∀ sOk suOk la lo sg : Bool,
      (addSessionMessage u today sOk suOk la lo sg).2.dailyMessagesUsed = 0 ∨
      (addSessionMessage u today sOk suOk la lo sg).2.dailyMessagesUsed =
        u.dailyMessagesUsed) ∧
    (∀ la lo sg : Bool,
      (addSessionMessage u today true false la lo sg).1 = 500 →
      (addSessionMessage u today true false la lo sg).2 = u) ∧
    (∀ la lo : Bool,
      (addSessionMessage u today true true la lo false).1 = 500 →
      (addSessionMessage u today true true la lo false).2.lastMessageDate =
          some today ∨
        (addSessionMessage u today true true la lo false).2 = u) ∧
    (∀ sysOk v p cOk : Bool,
      (createJournal u today sysOk v p cOk).1 = 500 →
      (createJournal u today sysOk v p cOk).2 = u) ∧
    (∀ sysOk v p : Bool,
      (createJournal u today sysOk v p false).2.dailyJournalsUsed =
        u.dailyJournalsUsed) := by
  refine ⟨?_, ?_, ?_, ?_, ?_⟩
  · intro sOk suOk la lo sg
    unfold addSessionMessage
    split_ifs <;> simp_all [getAllAcceptsContextKwargs]
    all_goals split_ifs <;> simp_all
  · intro la lo sg
    unfold addSessionMessage
    split_ifs <;> simp_all
    all_goals split_ifs <;> simp_all
  · intro la lo
    unfold addSessionMessage
    split_ifs <;> simp_all
    all_goals split_ifs <;> simp_all
  · intro sysOk v p cOk
    unfold createJournal
    split_ifs <;> simp_all
    all_goals split_ifs <;> simp_all
  · intro sysOk v p
    unfold createJournal
    split_ifs <;> simp_all
    all_goals split_ifs <;> simp_all

/-- C9 witness: a failed user-message write ends 500 and leaves the
user row untouched, and a failed journal insert likewise. -/
theorem C9_not_charged_witness :
    (addSessionMessage freeUserDayOld 1 true false true true true).2 =
      freeUserDayOld ∧
    (createJournal freeUserDayOld 1 true true true false).2 =
      freeUserDayOld := by
  have h := C9_counter_not_charged_on_failure freeUserDayOld 1
  exact ⟨h.2.1 true true true (by decide),
         h.2.2.2.1 true true true false (by decide)⟩

/-- Helper: the webhook leaves a users table without a matching
subscription id untouched. -/
theorem updateFirstMatch_no_match (users : List UserRec) (sid : String)
    (h : ∀ u ∈ users, u.stripeSubscriptionId ≠ some sid) :
    updateFirstMatch users sid = users := by
  induction users with
  | nil => rfl
  | cons u us ih =>
    have hu : u.stripeSubscriptionId ≠ some sid := h u (by simp)
    rw [updateFirstMatch, if_neg hu, ih (fun v hv => h v (by simp [hv]))]

/-- Helper: the webhook rewrites exactly the first matching user. -/
theorem updateFirstMatch_append (pre post : List UserRec) (u : UserRec)
    (sid : String)
    (hpre : ∀ v ∈ pre, v.stripeSubscriptionId ≠ some sid)
    (hu : u.stripeSubscriptionId = some sid) :
    updateFirstMatch (pre ++ u :: post) sid =
      pre ++ subscriptionDeletedUpdate u :: post := by
  induction pre with
  | nil => simp [updateFirstMatch, hu]
  | cons v vs ih =>
    have hv : v.stripeSubscriptionId ≠ some sid := hpre v (by simp)
    simpa [updateFirstMatch, if_neg hv]
      using ih (fun w hw => hpre w (by simp [hw]))

/-- C5: a customer.subscription.deleted event whose subscription id
matches a user sets that user's tier to free, status to canceled and
clears the stored subscription id (keeping the customer id), answers
200, and leaves every other row unchanged; the same event for an id
matching nobody answers 200 with the users table untouched. -/
theorem C5_subscription_deleted_webhook (pre post : List UserRec) (u : UserRec)
    (sid : String)
    (hpre : ∀ v ∈ pre, v.stripeSubscriptionId ≠ some sid)
    (hu : u.stripeSubscriptionId = some sid) :
    (processSubscriptionDeleted (pre ++ u :: post) sid).1 = 200 ∧
    (processSubscriptionDeleted (pre ++ u :: post) sid).2 =
      pre ++ subscriptionDeletedUpdate u :: post ∧
    (subscriptionDeletedUpdate u).tier = Tier.free ∧
    (subscriptionDeletedUpdate u).subscriptionStatus = some "canceled" ∧
    (subscriptionDeletedUpdate u).stripeSubscriptionId = none ∧
    (subscriptionDeletedUpdate u).stripeCustomerId = u.stripeCustomerId ∧
    ∀ users : List UserRec,
      (∀ v ∈ users, v.stripeSubscriptionId ≠ some sid) →
      processSubscriptionDeleted users sid = (200, users) := by
  refine ⟨rfl, ?_, rfl, rfl, rfl, rfl, ?_⟩
  · exact updateFirstMatch_append pre post u sid hpre hu
  · intro users husers
    unfold processSubscriptionDeleted
    rw [updateFirstMatch_no_match users sid husers]

/-- C5 witness: a two-user table where the second user holds the
subscription; the event updates that row alone, and an unknown id
leaves the table untouched. -/
theorem C5_subscription_deleted_witness :
    (processSubscriptionDeleted
        [{ id := "uA", tier := Tier.free, stripeCustomerId := none,
           stripeSubscriptionId := none, subscriptionStatus := none,
           dailyMessagesUsed := 0, lastMessageDate := none,
           dailyJournalsUsed := 0, lastJournalDate := none },
         { id := "uB", tier := Tier.pro, stripeCustomerId := some "cus1",
           stripeSubscriptionId := some "sub1",
           subscriptionStatus := some "active",
           dailyMessagesUsed := 0, lastMessageDate := none,
           dailyJournalsUsed := 0, lastJournalDate := none }] "sub1").2 =
      [{ id := "uA", tier := Tier.free, stripeCustomerId := none,
         stripeSubscriptionId := none, subscriptionStatus := none,
         dailyMessagesUsed := 0, lastMessageDate := none,
         dailyJournalsUsed := 0, lastJournalDate := none },
       subscriptionDeletedUpdate
         { id := "uB", tier := Tier.pro, stripeCustomerId := some "cus1",
           stripeSubscriptionId := some "sub1",
           subscriptionStatus := some "active",
           dailyMessagesUsed := 0, lastMessageDate := none,
           dailyJournalsUsed := 0, lastJournalDate := none }] ∧
    (processSubscriptionDeleted
        [{ id := "uA", tier := Tier.free, stripeCustomerId := none,
           stripeSubscriptionId := none, subscriptionStatus := none,
           dailyMessagesUsed := 0, lastMessageDate := none,
           dailyJournalsUsed := 0, lastJournalDate := none }] "subX") =
      (200,
       [{ id := "uA", tier := Tier.free, stripeCustomerId := none,
          stripeSubscriptionId := none, subscriptionStatus := none,
          dailyMessagesUsed := 0, lastMessageDate := none,
          dailyJournalsUsed := 0, lastJournalDate := none }]) := by
  have h := C5_subscription_deleted_webhook
    [{ id := "uA", tier := Tier.free, stripeCustomerId := none,
       stripeSubscriptionId := none, subscriptionStatus := none,
       dailyMessagesUsed := 0, lastMessageDate := none,
       dailyJournalsUsed := 0, lastJournalDate := none }]
    []
    { id := "uB", tier := Tier.pro, stripeCustomerId := some "cus1",
      stripeSubscriptionId := some "sub1",
      subscriptionStatus := some "active",
      dailyMessagesUsed := 0, lastMessageDate := none,
      dailyJournalsUsed := 0, lastJournalDate := none }
    "sub1" (by decide) (by decide)
  refine ⟨h.2.1, ?_⟩
  have h2 := C5_subscription_deleted_webhook [] []
    { id := "uB", tier := Tier.pro, stripeCustomerId := some "cus1",
      stripeSubscriptionId := some "subX",
      subscriptionStatus := some "active",
      dailyMessagesUsed := 0, lastMessageDate := none,
      dailyJournalsUsed := 0, lastJournalDate := none }
    "subX" (by decide) (by decide)
  exact h2.2.2.2.2.2.2 _ (by decide)

/-- C6: every adapter operation maps every backend outcome to a plain
return value — a backend exception or a failing HTTP response is
answered with the sentinel of the operation (None for single records,
the empty list for lists, False for delete, 0 for count), and where a
distinct not-found outcome exists it is mapped to the very same
sentinel as an error, so the two are indistinguishable to the caller. -/
theorem C6_adapter_failure_sentinels :
    (getByIdLocal LocalFetch.raises = none ∧
     getByIdLocal LocalFetch.missing = getByIdLocal LocalFetch.raises) ∧
    getAllLocal LocalQuery.raises = [] ∧
    createLocal LocalQuery.raises = none ∧
    (updateLocal LocalUpdate.raises = none ∧
     updateLocal LocalUpdate.missing = updateLocal LocalUpdate.raises) ∧
    (deleteLocalOutcome LocalFetch.raises = false ∧
     deleteLocalOutcome LocalFetch.missing = deleteLocalOutcome LocalFetch.raises) ∧
    countLocal LocalQuery.raises = 0 ∧
    vectorSimilarityLocal LocalQuery.raises = [] ∧
    (getByIdSupabase HttpResp.netError = none ∧
     ∀ s rows, is2xx s = false → getByIdSupabase (HttpResp.resp s rows) = none) ∧
    (getAllSupabase HttpResp.netError = [] ∧
     ∀ s rows, is2xx s = false → getAllSupabase (HttpResp.resp s rows) = []) ∧
    (∀ processed, createSupabase processed HttpResp.netError = none ∧
     ∀ s rows, is2xx s = false →
       createSupabase processed (HttpResp.resp s rows) = none) ∧
    (updateSupabase HttpResp.netError = none ∧
     ∀ s rows, is2xx s = false → updateSupabase (HttpResp.resp s rows) = none) ∧
    deleteSupabaseOutcome HttpResp.netError = false ∧
    (countSupabase CountResp.netError = 0 ∧
     ∀ cr fb s, is2xx s = false → countSupabase (CountResp.resp s cr fb) = 0) ∧
    (vectorSimilaritySupabase HttpResp.netError = [] ∧
     ∀ s rows, is2xx s = false →
       vectorSimilaritySupabase (HttpResp.resp s rows) = []) ∧
    (∀ o, getByIdLocal o = none ∨
       ∃ r, o = LocalFetch.found r ∧ getByIdLocal o = some r) := by
  refine ⟨⟨rfl, rfl⟩, rfl, rfl, ⟨rfl, rfl⟩, ⟨rfl, rfl⟩, rfl, rfl,
    ⟨rfl, ?_⟩, ⟨rfl, ?_⟩, ?_, ⟨rfl, ?_⟩, rfl, ⟨rfl, ?_⟩, ⟨rfl, ?_⟩, ?_⟩
  · intro s rows h
    simp [getByIdSupabase, h]
  · intro s rows h
    simp [getAllSupabase, h]
  · intro processed
    refine ⟨rfl, ?_⟩
    intro s rows h
    simp [createSupabase, h]
  · intro s rows h
    simp [updateSupabase, h]
  · intro cr fb s h
    simp [countSupabase, h]
  · intro s rows h
    simp [vectorSimilaritySupabase, h]
  · intro o
    cases o with
    | found r => exact Or.inr ⟨r, rfl, rfl⟩
    | missing => exact Or.inl rfl
    | raises => exact Or.inl rfl

/-- C6 witness: the hosted operations at a concrete failing status. -/
theorem C6_adapter_failure_sentinels_witness :
    getByIdSupabase (HttpResp.resp 404 []) = none ∧
    getAllSupabase (HttpResp.resp 500 []) = [] ∧
    countSupabase (CountResp.resp 503 none HttpResp.netError) = 0 := by
  have h := C6_adapter_failure_sentinels
  exact ⟨h.2.2.2.2.2.2.2.1.2 404 [] (by decide),
         h.2.2.2.2.2.2.2.2.1.2 500 [] (by decide),
         h.2.2.2.2.2.2.2.2.2.2.2.2.1.2 (none : Option (Option Nat))
           HttpResp.netError 503 (by decide)⟩

/-- C7 counterexample: with the local-JWT auth backend active,
auth_required performs no provisioning at all — a user whose System
exists but whose Self part was deleted still has no part with role
Self after a successful authenticated request, contradicting the
claim's for-every-backend repair. -/
theorem C7_counterexample_jwt_no_repair :
    (authRequiredProvision AuthMode.jwt "u1" "s9" "p9"
        [{ id := "s1", userId := "u1" }] []).1 =
      [{ id := "s1", userId := "u1" }] ∧
    (authRequiredProvision AuthMode.jwt "u1" "s9" "p9"
        [{ id := "s1", userId := "u1" }] []).2 = [] ∧
    hasSelfPart
      (authRequiredProvision AuthMode.jwt "u1" "s9" "p9"
        [{ id := "s1", userId := "u1" }] []).2 "s1" = false := by
  decide

/-- C7 amended: the provisioning and repair happen only in the hosted
(Supabase) auth mode.  There, a user with no System gets exactly one
new System holding a part with role Self, and a user whose System
exists gets a Self part recreated when it is missing, the systems
table unchanged; in local-JWT mode auth_required changes nothing. -/
theorem C7_provisioning_by_mode (uid newSysId newPartId : String)
    (systems : List SystemRec) (parts : List PartRec) :
    (systems.find? (fun s => s.userId = uid) = none →
      ((authRequiredProvision AuthMode.supabase uid newSysId newPartId
          systems parts).1.filter (fun s => s.userId = uid)) =
        [{ id := newSysId, userId := uid }] ∧
      hasSelfPart
        (authRequiredProvision AuthMode.supabase uid newSysId newPartId
          systems parts).2 newSysId = true) ∧
    (∀ s, systems.find? (fun s2 => s2.userId = uid) = some s →
      (authRequiredProvision AuthMode.supabase uid newSysId newPartId
        systems parts).1 = systems ∧
      hasSelfPart
        (authRequiredProvision AuthMode.supabase uid newSysId newPartId
          systems parts).2 s.id = true) ∧
    authRequiredProvision AuthMode.jwt uid newSysId newPartId systems parts =
      (systems, parts) := by
  refine ⟨?_, ?_, rfl⟩
  · intro hnone
    have hall : ∀ s ∈ systems, ¬ (s.userId = uid) := by
      intro s hs
      have := List.find?_eq_none.mp hnone s hs
      simpa using this
    constructor
    · simp only [authRequiredProvision, hnone, List.filter_append]
      rw [List.filter_eq_nil_iff.mpr (fun s hs => by simpa using hall s hs)]
      simp
    · simp [authRequiredProvision, hnone, hasSelfPart, mkSelfPart,
        List.any_append]
  · intro s hs
    cases hsp : hasSelfPart parts s.id with
    | true =>
      have hres : authRequiredProvision AuthMode.supabase uid newSysId newPartId
          systems parts = (systems, parts) := by
        simp [authRequiredProvision, hs, hsp]
      rw [hres]
      exact ⟨rfl, hsp⟩
    | false =>
      have hres : authRequiredProvision AuthMode.supabase uid newSysId newPartId
          systems parts = (systems, parts ++ [mkSelfPart newPartId s.id]) := by
        simp [authRequiredProvision, hs, hsp]
      rw [hres]
      refine ⟨rfl, ?_⟩
      simp [hasSelfPart, mkSelfPart, List.any_append]

/-- C7 witness: a user with no System, in hosted mode, ends with
exactly one System carrying a Self part; JWT mode is the identity. -/
theorem C7_provisioning_witness :
    ((authRequiredProvision AuthMode.supabase "u1" "s1" "p1" [] []).1.filter
      (fun s => s.userId = "u1")) = [{ id := "s1", userId := "u1" }] ∧
    hasSelfPart
      (authRequiredProvision AuthMode.supabase "u1" "s1" "p1" [] []).2
      "s1" = true := by
  have h := C7_provisioning_by_mode "u1" "s1" "p1" [] []
  exact h.1 rfl

/-- C8 counterexample: in the hosted-auth backend a duplicate email is
signalled by the provider, and the register endpoint maps a provider
client exception (which is not a ValueError) to 500 and a
user-without-session response to 201 — no provider outcome other than
a user-less response yields the claimed 400.  Evaluated with a valid
password and the email already taken. -/
theorem C8_counterexample_hosted_duplicate_email :
    (registerResult RegisterMode.hostedSupabase true "Password1" true
      SupaSignupOutcome.apiError).1 = 500 ∧
    (registerResult RegisterMode.hostedSupabase true "Password1" true
      SupaSignupOutcome.confirmationNeeded).1 = 201 := by
  decide

/-- C8 amended: a password without an uppercase letter (but otherwise
schema-valid) is rejected 400 with the error keyed on the password
field in both backends; a duplicate email is rejected 400 in the
local-JWT backend; in the hosted backend the endpoint answers 400 only
when the provider response carries no user object, while a provider
exception yields 500. -/
theorem C8_registration_validation (mode : RegisterMode) (password : String)
    (emailTaken : Bool) (supa : SupaSignupOutcome)
    (h8 : 8 ≤ password.length) (_hl : hasLower password = true)
    (_hd : hasDigit password = true) (hu : hasUpper password = false) :
    registerResult mode true password emailTaken supa = (400, ["password"]) ∧
    (∀ pw, validateRegistrationInput true pw = (true, []) →
      registerResult RegisterMode.localJwt true pw true supa = (400, [])) ∧
    (∀ pw, validateRegistrationInput true pw = (true, []) →
      registerResult RegisterMode.hostedSupabase true pw true
        SupaSignupOutcome.noUser = (400, []) ∧
      registerResult RegisterMode.hostedSupabase true pw true
        SupaSignupOutcome.apiError = (500, [])) := by
  refine ⟨?_, ?_, ?_⟩
  · have hlen : ¬ (password.length < 8) := by omega
    simp [registerResult, validateRegistrationInput, hlen, hu]
  · intro pw hv
    simp [registerResult, hv]
  · intro pw hv
    constructor <;> simp [registerResult, hv]

/-- C8 witness: a concrete lowercase-only password is rejected with the
password-keyed 400 and a concrete duplicate email is rejected 400
locally. -/
theorem C8_registration_validation_witness :
    registerResult RegisterMode.localJwt true "abcdefg1" true
      SupaSignupOutcome.sessionGranted = (400, ["password"]) ∧
    registerResult RegisterMode.localJwt true "Password1" true
      SupaSignupOutcome.sessionGranted = (400, []) := by
  have h := C8_registration_validation RegisterMode.localJwt "abcdefg1" true
    SupaSignupOutcome.sessionGranted (by decide) (by decide) (by decide)
    (by decide)
  exact ⟨h.1, h.2.1 "Password1" (by decide)⟩

/-- C10: deleting a nonexistent id diverges between the backends — the
local arm reports False and the endpoint answers 404 "Part not found",
while the hosted arm treats the table service's 2xx answer (which a
missing id still receives) as success, so the endpoint answers 200
"Part deleted successfully"; indeed every 2xx status is mapped to
True. -/
theorem C10_delete_missing_id_divergence (parts : List PartRec) (idv : String)
    (h : ∀ p ∈ parts, p.id ≠ idv) :
    (dbDeleteLocal parts idv).1 = false ∧
    (deletePart parts idv).1 = 404 ∧
    (deletePart parts idv).2.1 = "Part not found" ∧
    dbDeleteSupabase parts idv = true ∧
    (deletePartSupabase parts idv).1 = 200 ∧
    (deletePartSupabase parts idv).2 = "Part deleted successfully" ∧
    ∀ s, 200 ≤ s → s < 300 → is2xx s = true := by
  have hany : parts.any (fun p => p.id = idv) = false := by
    rw [List.any_eq_false]
    intro p hp
    simpa using h p hp
  have hsb : dbDeleteSupabase parts idv = true := by
    simp [dbDeleteSupabase, remoteDeleteHttpStatus, is2xx]
  refine ⟨?_, ?_, ?_, hsb, ?_, ?_, ?_⟩
  · simp [dbDeleteLocal, hany]
  · simp [deletePart, dbDeleteLocal, hany]
  · simp [deletePart, dbDeleteLocal, hany]
  · simp [deletePartSupabase, hsb]
  · simp [deletePartSupabase, hsb]
  · intro s h1 h2
    simp [is2xx]
    omega

/-- C10 witness at a one-part store and an id not in it. -/
theorem C10_delete_missing_id_witness :
    (deletePart
        [{ id := "p1", name := "Manager", role := none, systemId := "s1",
           feelings := [] }] "p404").1 = 404 ∧
    (deletePartSupabase
        [{ id := "p1", name := "Manager", role := none, systemId := "s1",
           feelings := [] }] "p404").1 = 200 := by
  have h := C10_delete_missing_id_divergence
    [{ id := "p1", name := "Manager", role := none, systemId := "s1",
       feelings := [] }] "p404" (by decide)
  exact ⟨h.2.1, h.2.2.2.2.1⟩

end IFS
